import Mathlib
/-!
Verification of the binwalk extraction slice: the CPIO structure parser
(src/structures/cpio.rs), the CPIO archive walker/extractor
(src/extractors/cpio.rs) and the bzip2 multi-member decompressor
(src/extractors/bzip2.rs), shallowly embedded over byte lists (`List Nat`,
each entry a byte value).  Rust `usize` values are modelled as `Nat`: every
quantity that arises below is bounded by `16 ^ 8 + buffer length`, far from
the 64-bit overflow boundary, so no wrap-around modelling is needed.
-/

/-- Opaque parse error from structures/common.rs (a unit struct). -/
inductive StructureError where
  | mk
deriving DecidableEq

/-- Modelled from the spec (section 3): the result type returned by every
extractor, defined in extractors/common.rs which is not under src/.
`success` reports payload recovery, `size` the count of consumed input bytes. -/
structure ExtractionResult where
  success : Bool
  size : Option Nat
deriving DecidableEq

/-- Modelled from the spec: the Rust `Default` for `ExtractionResult`
(success false, no size), the value each extractor starts from. -/
def ExtractionResult.default : ExtractionResult := { success := false, size := none }

/-- Rust slice indexing `&xs[a..b]`: out-of-range indexing panics, which the
embedding marks as `none`. -/
def rust_index_range (xs : List Nat) (a b : Nat) : Option (List Nat) :=
  if a ≤ b ∧ b ≤ xs.length then some ((xs.drop a).take (b - a)) else none

/-- Rust `xs.get(a..b)`: the same bounds check, but `None` is an ordinary
value handled by the caller, not a panic. -/
def rust_get_range (xs : List Nat) (a b : Nat) : Option (List Nat) :=
  if a ≤ b ∧ b ≤ xs.length then some ((xs.drop a).take (b - a)) else none

/-- Rust `xs.get(a..)`. -/
def rust_get_from (xs : List Nat) (a : Nat) : Option (List Nat) :=
  if a ≤ xs.length then some (xs.drop a) else none

/-- Rust `usize` subtraction `a - b`: underflow is a panic (`none`). -/
def rust_sub (a b : Nat) : Option Nat :=
  if b ≤ a then some (a - b) else none

/-- Value of one ASCII hexadecimal digit byte (0-9, a-f, A-F). -/
def hex_digit_value (c : Nat) : Option Nat :=
  if 48 ≤ c ∧ c ≤ 57 then some (c - 48)
  else if 97 ≤ c ∧ c ≤ 102 then some (c - 87)
  else if 65 ≤ c ∧ c ≤ 70 then some (c - 55)
  else none

/-- Accumulating digit loop of `usize::from_str_radix(_, 16)`. -/
def hex_digits_loop : List Nat → Nat → Option Nat
  | [], acc => some acc
  | c :: rest, acc =>
    match hex_digit_value c with
    | none => none
    | some d => hex_digits_loop rest (acc * 16 + d)

/-- Composition of `String::from_utf8(bytes)` and `usize::from_str_radix(s, 16)`
as the CPIO parser applies them to one 8-byte field: the pair succeeds exactly
when the bytes are an optional ASCII plus sign followed by a nonempty run of
ASCII hex digits (a byte sequence that is not valid UTF-8, or any character
outside that shape, makes one of the two steps fail; unsigned parsing rejects a
minus sign).  The fields are 8 bytes, so the value is below `16 ^ 8` and
`usize` overflow cannot occur. -/
def from_str_radix16 (bs : List Nat) : Option Nat :=
  match bs with
  | [] => none
  | c :: rest =>
    if c = 43 then
      match rest with
      | [] => none
      | _ => hex_digits_loop rest 0
    else hex_digits_loop bs 0

/-- Whether a byte is a UTF-8 continuation byte (0x80-0xBF). -/
def is_cont (b : Nat) : Bool := decide (128 ≤ b ∧ b ≤ 191)

/-- UTF-8 validity of a byte sequence, the check performed by Rust
`String::from_utf8`.  A Rust `String` is exactly a valid UTF-8 byte sequence
and decoding is injective, so the embedding keeps strings as their validated
bytes; equality of the byte lists coincides with Rust `String` equality. -/
def utf8_valid : List Nat → Bool
  | [] => true
  | b :: rest =>
    if b ≤ 127 then utf8_valid rest
    else if 194 ≤ b ∧ b ≤ 223 then
      match rest with
      | c1 :: r => is_cont c1 && utf8_valid r
      | [] => false
    else if b = 224 then
      match rest with
      | c1 :: c2 :: r => decide (160 ≤ c1 ∧ c1 ≤ 191) && is_cont c2 && utf8_valid r
      | _ => false
    else if (225 ≤ b ∧ b ≤ 236) ∨ b = 238 ∨ b = 239 then
      match rest with
      | c1 :: c2 :: r => is_cont c1 && is_cont c2 && utf8_valid r
      | _ => false
    else if b = 237 then
      match rest with
      | c1 :: c2 :: r => decide (128 ≤ c1 ∧ c1 ≤ 159) && is_cont c2 && utf8_valid r
      | _ => false
    else if b = 240 then
      match rest with
      | c1 :: c2 :: c3 :: r =>
        decide (144 ≤ c1 ∧ c1 ≤ 191) && is_cont c2 && is_cont c3 && utf8_valid r
      | _ => false
    else if 241 ≤ b ∧ b ≤ 243 then
      match rest with
      | c1 :: c2 :: c3 :: r => is_cont c1 && is_cont c2 && is_cont c3 && utf8_valid r
      | _ => false
    else if b = 244 then
      match rest with
      | c1 :: c2 :: c3 :: r =>
        decide (128 ≤ c1 ∧ c1 ≤ 143) && is_cont c2 && is_cont c3 && utf8_valid r
      | _ => false
    else false

/-- CPIO file type classification (structures/cpio.rs). -/
inductive CPIOFileType where
  | Regular
  | Directory
  | Symlink
  | BlockDevice
  | CharDevice
  | Fifo
  | Socket
  | Unknown
deriving DecidableEq

/-- Parsed CPIO entry header (structures/cpio.rs).  `file_name` holds the
validated UTF-8 bytes of the Rust `String`. -/
structure CPIOEntryHeader where
  magic : List Nat
  data_size : Nat
  file_name : List Nat
  header_size : Nat
  mode : Nat
  file_type : CPIOFileType
  dev_major : Nat
  dev_minor : Nat
deriving DecidableEq

deriving instance DecidableEq for Except

/-- `CPIO_HEADER_SIZE` from structures/cpio.rs. -/
def CPIO_HEADER_SIZE : Nat := 110

/-- `byte_padding` from structures/cpio.rs: bytes needed to round `n` up to a
multiple of 4. -/
def byte_padding (n : Nat) : Nat :=
  if n % 4 = 0 then 0 else 4 - n % 4

/-- `parse_file_type` from structures/cpio.rs: classify `mode & S_IFMT`
against the seven known Unix file-type bit patterns. -/
def parse_file_type (mode : Nat) : CPIOFileType :=
  if mode &&& 0o170000 = 0o100000 then CPIOFileType.Regular
  else if mode &&& 0o170000 = 0o040000 then CPIOFileType.Directory
  else if mode &&& 0o170000 = 0o120000 then CPIOFileType.Symlink
  else if mode &&& 0o170000 = 0o060000 then CPIOFileType.BlockDevice
  else if mode &&& 0o170000 = 0o020000 then CPIOFileType.CharDevice
  else if mode &&& 0o170000 = 0o010000 then CPIOFileType.Fifo
  else if mode &&& 0o170000 = 0o140000 then CPIOFileType.Socket
  else CPIOFileType.Unknown

/-- `is_executable` from structures/cpio.rs. -/
def is_executable (mode : Nat) : Bool :=
  decide (mode &&& (0o100 ||| 0o010 ||| 0o001) ≠ 0)

/-- `parse_cpio_entry_header` from structures/cpio.rs.  Field offsets are the
source constants: magic 0..6, mode 14..22, dev_major 22..30, dev_minor 30..38,
file size 54..62, name size 94..102.  The fixed-offset slices use Rust's
panicking indexing (`rust_index_range`, `none` = panic); the name slice uses
the checked `get` whose `None` falls through to the `StructureError` result,
exactly as every other failed check does.  The outer `none` layer therefore
marks a panic, shown unreachable below. -/
def parse_cpio_entry_header (cpio_data : List Nat) :
    Option (Except StructureError CPIOEntryHeader) :=
  if cpio_data.length > CPIO_HEADER_SIZE then
    match rust_index_range cpio_data 0 6 with
    | none => none
    | some header_magic =>
      match rust_index_range cpio_data 14 22 with
      | none => none
      | some mode_bytes =>
        match from_str_radix16 mode_bytes with
        | none => some (Except.error StructureError.mk)
        | some mode =>
          match rust_index_range cpio_data 22 30 with
          | none => none
          | some dev_major_bytes =>
            match from_str_radix16 dev_major_bytes with
            | none => some (Except.error StructureError.mk)
            | some dev_major =>
              match rust_index_range cpio_data 30 38 with
              | none => none
              | some dev_minor_bytes =>
                match from_str_radix16 dev_minor_bytes with
                | none => some (Except.error StructureError.mk)
                | some dev_minor =>
                  match rust_index_range cpio_data 54 62 with
                  | none => none
                  | some file_size_bytes =>
                    match from_str_radix16 file_size_bytes with
                    | none => some (Except.error StructureError.mk)
                    | some file_data_size =>
                      match rust_index_range cpio_data 94 102 with
                      | none => none
                      | some file_name_size_bytes =>
                        match from_str_radix16 file_name_size_bytes with
                        | none => some (Except.error StructureError.mk)
                        | some file_name_size =>
                          match rust_sub (CPIO_HEADER_SIZE + file_name_size) 1 with
                          | none => none
                          | some file_name_end =>
                            match rust_get_range cpio_data CPIO_HEADER_SIZE file_name_end with
                            | none => some (Except.error StructureError.mk)
                            | some file_name_raw_bytes =>
                              if utf8_valid file_name_raw_bytes then
                                some (Except.ok
                                  { magic := header_magic
                                    file_name := file_name_raw_bytes
                                    data_size := file_data_size + byte_padding file_data_size
                                    header_size := (CPIO_HEADER_SIZE + file_name_size) +
                                      byte_padding (CPIO_HEADER_SIZE + file_name_size)
                                    mode := mode
                                    file_type := parse_file_type mode
                                    dev_major := dev_major
                                    dev_minor := dev_minor })
                              else some (Except.error StructureError.mk)
  else some (Except.error StructureError.mk)

/-- Runs the parser.  The `none` (panic) branch is unreachable — see
`parse_cpio_entry_header_isSome` below — so callers observe exactly the Rust
`Result`. -/
def parse_cpio_run (cpio_data : List Nat) : Except StructureError CPIOEntryHeader :=
  (parse_cpio_entry_header cpio_data).getD (Except.error StructureError.mk)

/-- ASCII code of the lowercase hexadecimal digit `d`. -/
def hexChar (d : Nat) : Nat := if d < 10 then 48 + d else 87 + d

/-- The 8 ASCII bytes of a value printed as zero-padded lowercase hexadecimal,
most significant digit first — the field encoding of the newc CPIO header.
The divisors are the powers 16^7 .. 16^0. -/
def hex8 (v : Nat) : List Nat :=
  [hexChar (v / 268435456 % 16), hexChar (v / 16777216 % 16),
   hexChar (v / 1048576 % 16), hexChar (v / 65536 % 16),
   hexChar (v / 4096 % 16), hexChar (v / 256 % 16),
   hexChar (v / 16 % 16), hexChar (v % 16)]

/-- Bytes of the ASCII magic "070701". -/
def cpio_magic : List Nat := [48, 55, 48, 55, 48, 49]

/-- Bytes of the trailer name "TRAILER!!!", the `EOF_MARKER` constant of
src/extractors/cpio.rs. -/
def EOF_MARKER : List Nat := [84, 82, 65, 73, 76, 69, 82, 33, 33, 33]

/-- Modelled from the spec (section 8, archive header round-trip): the newc
header encoder that the round-trip property runs before the parser — no
encoder ships under src/.  It emits the magic "070701", thirteen 8-digit
ASCII-hex fields (of which the parser reads mode at offset 14, dev_major at
22, dev_minor at 30, data size at 54 and name size at 94; the rest are
zero), then the name bytes, the NUL terminator counted by the name-size
field, and the alignment padding that rounds the header-plus-name region up
to a multiple of 4. -/
def cpio_encode_header (mode filesize : Nat) (name : List Nat) : List Nat :=
  cpio_magic ++ (hex8 0 ++ (hex8 mode ++ (hex8 0 ++ (hex8 0 ++ (hex8 0 ++ (hex8 0 ++
    (hex8 filesize ++ (hex8 0 ++ (hex8 0 ++ (hex8 0 ++ (hex8 0 ++
    (hex8 (name.length + 1) ++ (hex8 0 ++ (name ++ ([0] ++
    List.replicate (byte_padding (110 + (name.length + 1))) 0)))))))))))))))

/-- Modelled from the spec (section 4.3): `is_offset_safe` from crate::common,
which is not under src/ — the next offset must lie within the buffer and be
strictly beyond the previously accepted offset. -/
def is_offset_safe (available_data offset : Nat) (last_offset : Option Nat) : Bool :=
  if available_data ≤ offset then false
  else
    match last_offset with
    | none => true
    | some last => decide (last < offset)

/-- Modelled from the spec (section 4.4): the Sandbox Writer (`Chroot` of
extractors/common.rs, not under src/).  Filesystem state is abstracted away:
each creation operation is an oracle returning its success flag, and paths,
buffers and symlink targets are the byte strings the callers hand over.
`append_to_file` is additionally indexed by the position of the call in the
extractor's append sequence, standing for the growing state of the output
file. -/
structure Chroot where
  create_directory : List Nat → Bool
  carve_file : List Nat → List Nat → Nat → Nat → Bool
  create_symlink : List Nat → List Nat → Bool
  create_fifo : List Nat → Bool
  create_socket : List Nat → Bool
  create_block_device : List Nat → Nat → Nat → Bool
  create_character_device : List Nat → Nat → Nat → Bool
  make_executable : List Nat → Bool
  append_to_file : Nat → List Nat → Bool

/-- Modelled from the spec (section 4.4): the bytes that
`carve_file path data offset size` copies into the created file — the byte
range of the source buffer starting at `offset`, `size` bytes long. -/
def carve_region (file_data : List Nat) (offset size : Nat) : List Nat :=
  (file_data.drop offset).take size

/-- `CPIOEntry` from src/extractors/cpio.rs. -/
structure CPIOEntry where
  name : List Nat
  file_type : CPIOFileType
  mode : Nat
  data_offset : Nat
  data_size : Nat
  dev_major : Nat
  dev_minor : Nat
deriving DecidableEq

/-- `calculate_padding` from src/extractors/cpio.rs (the same computation as
`byte_padding` of the structure module). -/
def calculate_padding (size : Nat) : Nat :=
  if size % 4 = 0 then 0 else 4 - size % 4

/-- `extract_cpio_entry` from src/extractors/cpio.rs: materialize one entry
through the Sandbox Writer and report its success flag.  For a successful
executable regular file the source additionally calls `make_executable` and
discards its result; that call has no observable effect in this model and is
dropped.  The regular and symlink branches compute
`actual_size = data_size - calculate_padding data_size` exactly as the
source does. -/
def extract_cpio_entry (chroot : Chroot) (file_data : List Nat) (entry : CPIOEntry) : Bool :=
  match entry.file_type with
  | CPIOFileType.Directory => chroot.create_directory entry.name
  | CPIOFileType.Regular =>
    chroot.carve_file entry.name file_data entry.data_offset
      (entry.data_size - calculate_padding entry.data_size)
  | CPIOFileType.Symlink =>
    match rust_get_range file_data entry.data_offset
        (entry.data_offset + (entry.data_size - calculate_padding entry.data_size)) with
    | some target_bytes =>
      if utf8_valid (target_bytes.takeWhile fun b => decide (b ≠ 0)) then
        chroot.create_symlink entry.name (target_bytes.takeWhile fun b => decide (b ≠ 0))
      else false
    | none => false
  | CPIOFileType.Fifo => chroot.create_fifo entry.name
  | CPIOFileType.Socket => chroot.create_socket entry.name
  | CPIOFileType.BlockDevice =>
    chroot.create_block_device entry.name entry.dev_major entry.dev_minor
  | CPIOFileType.CharDevice =>
    chroot.create_character_device entry.name entry.dev_major entry.dev_minor
  | CPIOFileType.Unknown => false

/-- The entry-enumeration loop of `extract_cpio` (src/extractors/cpio.rs),
with an explicit iteration budget (`fuel`): `none` marks budget exhaustion.
The loop state is the loop-local mutable state of the source: next offset,
previously accepted offset, accumulated total size, recorded entries, and
the result being built.  The termination theorem below shows the loop always
exits within `file_data.length + 1` iterations, so the budget `extract_cpio`
passes never runs out. -/
def extract_cpio_loop (file_data : List Nat) :
    Nat → Nat → Option Nat → Nat → List CPIOEntry → ExtractionResult →
    Option (ExtractionResult × List CPIOEntry)
  | 0, _, _, _, _, _ => none
  | fuel + 1, next_offset, previous_offset, total_size, entries, result =>
    if is_offset_safe file_data.length next_offset previous_offset then
      match rust_get_from file_data next_offset with
      | none => some (result, entries)
      | some entry_data =>
        match parse_cpio_run entry_data with
        | Except.error _ => some (result, entries)
        | Except.ok header =>
          if header.file_name = EOF_MARKER then
            some ({ success := true,
                    size := some (total_size + (header.header_size + header.data_size)) },
                  entries)
          else
            extract_cpio_loop file_data fuel
              (next_offset + (header.header_size + header.data_size))
              (some next_offset)
              (total_size + (header.header_size + header.data_size))
              (entries ++ [{ name := header.file_name
                             file_type := header.file_type
                             mode := header.mode
                             data_offset := next_offset + header.header_size
                             data_size := header.data_size
                             dev_major := header.dev_major
                             dev_minor := header.dev_minor }])
              result
    else some (result, entries)

/-- `extract_cpio` from src/extractors/cpio.rs: walk the archive from
`offset`, then, when the trailer was found and an output directory given,
materialize every recorded entry and downgrade success if none succeeded.
The `none` fallback is unreachable: the loop exits within
`file_data.length + 1` iterations on every input. -/
def extract_cpio (chroot : Chroot) (file_data : List Nat) (offset : Nat)
    (output_directory : Option String) : ExtractionResult :=
  match extract_cpio_loop file_data (file_data.length + 1) offset none 0 []
      ExtractionResult.default with
  | none => ExtractionResult.default
  | some (result, entries) =>
    if result.success && output_directory.isSome then
      if (entries.countP fun entry => extract_cpio_entry chroot file_data entry) = 0 then
        { result with success := false }
      else result
    else result

/-- Abstraction of `bzip2::read::BzDecoder` over one member.  The codec is a
trusted external library dependency (spec section 1), so the behavior of a
fresh decoder over a given input slice is an oracle value: the sequence of
nonempty chunks successive `read` calls return (`Ok(n)` with `n > 0`),
whether the run then ends in a read error (`failed = true`) or at
end-of-data (`Ok(0)`), and the cursor position — input bytes consumed —
observed after the run. -/
structure MemberOutcome where
  chunks : List (List Nat)
  failed : Bool
  consumed : Nat

/-- A decoder oracle: the member outcome for each input slice. -/
def BzOracle : Type := List Nat → MemberOutcome

/-- The inner read loop of `bzip2_decompressor` (src/extractors/bzip2.rs),
restricted to its observable effect: append each decoded chunk when an
output directory is present.  Returns the next append-sequence index, or
`none` when an append fails, upon which the source returns early. -/
def run_appends (chroot : Chroot) (has_outdir : Bool) : Nat → List (List Nat) → Option Nat
  | widx, [] => some widx
  | widx, c :: rest =>
    if has_outdir then
      if chroot.append_to_file widx c then run_appends chroot has_outdir (widx + 1) rest
      else none
    else run_appends chroot has_outdir widx rest

/-- The member-concatenation loop of `bzip2_decompressor`
(src/extractors/bzip2.rs), with an explicit iteration budget: `none` marks
budget exhaustion.  State: current offset, total consumed input bytes, the
`any_decompressed` flag, and the append-sequence index.  A failing append or
a member read error returns `success = any_decompressed` and
`size = Some(total consumed so far)` immediately; reaching the buffer end or
a member that consumed zero bytes falls out of the loop to the final result,
whose `size` is absent when nothing was consumed.  The termination theorem
below shows the loop exits within `file_data.length + 1` iterations. -/
def bzip2_loop (dec : BzOracle) (chroot : Chroot) (has_outdir : Bool) (file_data : List Nat) :
    Nat → Nat → Nat → Bool → Nat → Option ExtractionResult
  | 0, _, _, _, _ => none
  | fuel + 1, current_offset, total_consumed, any_decompressed, widx =>
    if file_data.length ≤ current_offset then
      some { success := any_decompressed,
             size := if 0 < total_consumed then some total_consumed else none }
    else
      match run_appends chroot has_outdir widx (dec (file_data.drop current_offset)).chunks with
      | none => some { success := any_decompressed, size := some total_consumed }
      | some widx2 =>
        if (dec (file_data.drop current_offset)).failed then
          some { success := any_decompressed, size := some total_consumed }
        else if (dec (file_data.drop current_offset)).consumed = 0 then
          some { success := any_decompressed,
                 size := if 0 < total_consumed then some total_consumed else none }
        else
          bzip2_loop dec chroot has_outdir file_data fuel
            (current_offset + (dec (file_data.drop current_offset)).consumed)
            (total_consumed + (dec (file_data.drop current_offset)).consumed)
            (any_decompressed || !(dec (file_data.drop current_offset)).chunks.isEmpty)
            widx2

/-- `bzip2_decompressor` from src/extractors/bzip2.rs: return the default
(failed, no size) result for an offset at or past the end of the buffer,
otherwise run the member-concatenation loop.  The `none` fallback is
unreachable: the loop exits within `file_data.length + 1` iterations on
every input. -/
def bzip2_decompressor (dec : BzOracle) (chroot : Chroot) (file_data : List Nat)
    (offset : Nat) (output_directory : Option String) : ExtractionResult :=
  if file_data.length ≤ offset then ExtractionResult.default
  else
    (bzip2_loop dec chroot output_directory.isSome file_data (file_data.length + 1)
      offset 0 false 0).getD ExtractionResult.default

/-- Written from the spec's words for the final-result clause of section 4.1:
whether, walking the concatenated members exactly as their consumption counts
delimit them, at least one member produced a decoded byte. -/
def any_member_output (dec : BzOracle) (file_data : List Nat) (current : Nat) : Bool :=
  if _h : file_data.length ≤ current then false
  else if _hc : (dec (file_data.drop current)).consumed = 0 then false
  else
    !(dec (file_data.drop current)).chunks.isEmpty ||
      any_member_output dec file_data (current + (dec (file_data.drop current)).consumed)
termination_by file_data.length - current
decreasing_by omega

/-- Written from the spec's words for the final-result clause of section 4.1:
the total number of input bytes the concatenated members consume. -/
def members_consumed (dec : BzOracle) (file_data : List Nat) (current : Nat) : Nat :=
  if _h : file_data.length ≤ current then 0
  else if _hc : (dec (file_data.drop current)).consumed = 0 then 0
  else
    (dec (file_data.drop current)).consumed +
      members_consumed dec file_data (current + (dec (file_data.drop current)).consumed)
termination_by file_data.length - current
decreasing_by omega

/-- The one-entry archive holding only the trailer. -/
def trailer_archive : List Nat := cpio_encode_header 0 0 EOF_MARKER

/-- The header the parser decodes at offset 0 of `trailer_archive`. -/
def trailer_header : CPIOEntryHeader :=
  { magic := cpio_magic
    data_size := 0
    file_name := EOF_MARKER
    header_size := 124
    mode := 0
    file_type := CPIOFileType.Unknown
    dev_major := 0
    dev_minor := 0 }

/-- A two-entry archive: a regular file "A" (mode 0o100644 = 33188) whose
stored data size decodes to 1, so its data region is the content byte 0x41
followed by three alignment pad bytes, and then the trailer. -/
def regfile_archive : List Nat :=
  cpio_encode_header 33188 1 [65] ++
    ([65, 0, 0, 0] ++ cpio_encode_header 0 0 EOF_MARKER)

/-- The entry the walker records for the regular file of `regfile_archive`. -/
def regfile_entry : CPIOEntry :=
  { name := [65]
    file_type := CPIOFileType.Regular
    mode := 33188
    data_offset := 112
    data_size := 4
    dev_major := 0
    dev_minor := 0 }

/-- A sandbox oracle whose operations all succeed. -/
def chroot_all_true : Chroot :=
  { create_directory := fun _ => true
    carve_file := fun _ _ _ _ => true
    create_symlink := fun _ _ => true
    create_fifo := fun _ => true
    create_socket := fun _ => true
    create_block_device := fun _ _ _ => true
    create_character_device := fun _ _ _ => true
    make_executable := fun _ => true
    append_to_file := fun _ _ => true }

/-- A decoder oracle that fails on the first read of every member, producing
nothing and consuming nothing — the behavior of the bzip2 decoder on a
buffer that carries no valid stream header. -/
def bz_err_oracle : BzOracle := fun _ => { chunks := [], failed := true, consumed := 0 }

/-- A decoder oracle that decodes every slice into one chunk, consuming the
whole slice. -/
def bz_ok_oracle : BzOracle :=
  fun s => { chunks := [[7]], failed := false, consumed := s.length }

/-- A decoder oracle for a 4-byte buffer holding one valid 2-byte member
followed by corrupt bytes: the full slice decodes one chunk and consumes 2
bytes, while the remaining slice fails at once. -/
def bz_two_member_oracle : BzOracle :=
  fun s =>
    if s.length = 4 then { chunks := [[1]], failed := false, consumed := 2 }
    else { chunks := [], failed := true, consumed := 0 }

lemma rust_index_range_eq (xs : List Nat) (a b : Nat) (h1 : a ≤ b) (h2 : b ≤ xs.length) :
    rust_index_range xs a b = some ((xs.drop a).take (b - a)) := by
  unfold rust_index_range
  rw [if_pos ⟨h1, h2⟩]

lemma rust_sub_eq (a b : Nat) (h : b ≤ a) : rust_sub a b = some (a - b) := by
  unfold rust_sub
  rw [if_pos h]

lemma parse_cpio_entry_header_isSome (d : List Nat) :
    (parse_cpio_entry_header d).isSome = true := by
  unfold parse_cpio_entry_header
  simp only [CPIO_HEADER_SIZE]
  split
  · rename_i hlen
    rw [rust_index_range_eq d 0 6 (by omega) (by omega),
        rust_index_range_eq d 14 22 (by omega) (by omega),
        rust_index_range_eq d 22 30 (by omega) (by omega),
        rust_index_range_eq d 30 38 (by omega) (by omega),
        rust_index_range_eq d 54 62 (by omega) (by omega),
        rust_index_range_eq d 94 102 (by omega) (by omega)]
    repeat' split
    all_goals simp_all [rust_sub]
  · rfl

lemma parse_header_eq (d : List Nat) (mode dmaj dmin fds fns : Nat) (nm : List Nat)
    (hlen : d.length > 110)
    (hmode : from_str_radix16 ((d.drop 14).take 8) = some mode)
    (hmaj : from_str_radix16 ((d.drop 22).take 8) = some dmaj)
    (hmin : from_str_radix16 ((d.drop 30).take 8) = some dmin)
    (hfds : from_str_radix16 ((d.drop 54).take 8) = some fds)
    (hfns : from_str_radix16 ((d.drop 94).take 8) = some fns)
    (hname : rust_get_range d 110 (110 + fns - 1) = some nm)
    (hutf : utf8_valid nm = true) :
    parse_cpio_entry_header d = some (Except.ok
      { magic := (d.drop 0).take 6
        data_size := fds + byte_padding fds
        file_name := nm
        header_size := (110 + fns) + byte_padding (110 + fns)
        mode := mode
        file_type := parse_file_type mode
        dev_major := dmaj
        dev_minor := dmin }) := by
  unfold parse_cpio_entry_header
  simp only [CPIO_HEADER_SIZE]
  rw [if_pos hlen]
  rw [rust_index_range_eq d 0 6 (by omega) (by omega),
      rust_index_range_eq d 14 22 (by omega) (by omega),
      rust_index_range_eq d 22 30 (by omega) (by omega),
      rust_index_range_eq d 30 38 (by omega) (by omega),
      rust_index_range_eq d 54 62 (by omega) (by omega),
      rust_index_range_eq d 94 102 (by omega) (by omega)]
  norm_num
  rw [hmode, hmaj, hmin, hfds, hfns]
  simp only []
  rw [rust_sub_eq _ 1 (by omega)]
  simp only [hname, hutf, if_true]

lemma parse_ok_sizes (d : List Nat) (h : CPIOEntryHeader)
    (hp : parse_cpio_entry_header d = some (Except.ok h)) :
    ∃ fds fns,
      from_str_radix16 ((d.drop 54).take 8) = some fds ∧
      from_str_radix16 ((d.drop 94).take 8) = some fns ∧
      h.data_size = fds + byte_padding fds ∧
      h.header_size = (110 + fns) + byte_padding (110 + fns) := by
  unfold parse_cpio_entry_header at hp
  simp only [CPIO_HEADER_SIZE] at hp
  split at hp
  · rename_i hlen
    rw [rust_index_range_eq d 0 6 (by omega) (by omega),
        rust_index_range_eq d 14 22 (by omega) (by omega),
        rust_index_range_eq d 22 30 (by omega) (by omega),
        rust_index_range_eq d 30 38 (by omega) (by omega),
        rust_index_range_eq d 54 62 (by omega) (by omega),
        rust_index_range_eq d 94 102 (by omega) (by omega)] at hp
    norm_num at hp
    repeat' split at hp
    all_goals simp_all
    all_goals (rw [← hp]; exact ⟨rfl, rfl⟩)
  · simp at hp

lemma hex_digit_value_hexChar (x : Nat) :
    hex_digit_value (hexChar (x % 16)) = some (x % 16) := by
  have hx : x % 16 < 16 := Nat.mod_lt _ (by norm_num)
  unfold hexChar hex_digit_value
  by_cases h : x % 16 < 10
  · rw [if_pos h, if_pos (by omega)]
    congr 1
    omega
  · rw [if_neg h, if_neg (by omega), if_pos (by omega)]
    congr 1
    omega

lemma hexChar_ne_43 (d : Nat) : ¬ hexChar d = 43 := by
  unfold hexChar
  split <;> omega

lemma from_str_radix16_hex8 (v : Nat) (hv : v < 4294967296) :
    from_str_radix16 (hex8 v) = some v := by
  unfold hex8 from_str_radix16
  simp only []
  rw [if_neg (hexChar_ne_43 _)]
  simp only [hex_digits_loop, hex_digit_value_hexChar]
  congr 1
  omega

lemma cpio_encode_header_length (mode filesize : Nat) (name : List Nat) :
    (cpio_encode_header mode filesize name).length =
      111 + name.length + byte_padding (110 + (name.length + 1)) := by
  simp [cpio_encode_header, cpio_magic, hex8]
  omega

lemma cpio_encode_drop110 (mode filesize : Nat) (name : List Nat) :
    (cpio_encode_header mode filesize name).drop 110 =
      name ++ ([0] ++ List.replicate (byte_padding (110 + (name.length + 1))) 0) := rfl

lemma cpio_encode_magic (mode filesize : Nat) (name : List Nat) :
    ((cpio_encode_header mode filesize name).drop 0).take 6 = cpio_magic := rfl

lemma cpio_encode_mode (mode filesize : Nat) (name : List Nat) :
    ((cpio_encode_header mode filesize name).drop 14).take 8 = hex8 mode := rfl

lemma cpio_encode_devmajor (mode filesize : Nat) (name : List Nat) :
    ((cpio_encode_header mode filesize name).drop 22).take 8 = hex8 0 := rfl

lemma cpio_encode_devminor (mode filesize : Nat) (name : List Nat) :
    ((cpio_encode_header mode filesize name).drop 30).take 8 = hex8 0 := rfl

lemma cpio_encode_filesize (mode filesize : Nat) (name : List Nat) :
    ((cpio_encode_header mode filesize name).drop 54).take 8 = hex8 filesize := rfl

lemma cpio_encode_namesize (mode filesize : Nat) (name : List Nat) :
    ((cpio_encode_header mode filesize name).drop 94).take 8 =
      hex8 (name.length + 1) := rfl

lemma cpio_encode_name (mode filesize : Nat) (name : List Nat) :
    rust_get_range (cpio_encode_header mode filesize name) 110
      (110 + (name.length + 1) - 1) = some name := by
  unfold rust_get_range
  rw [if_pos ⟨by omega, by rw [cpio_encode_header_length]; omega⟩]
  rw [cpio_encode_drop110]
  congr 1
  rw [show 110 + (name.length + 1) - 1 - 110 = name.length by omega]
  exact List.take_left' rfl

lemma is_offset_safe_lt (a o : Nat) (p : Option Nat) (h : is_offset_safe a o p = true) :
    o < a := by
  unfold is_offset_safe at h
  split at h
  · exact absurd h (by simp)
  · omega

lemma parse_run_ok (d : List Nat) (h : CPIOEntryHeader)
    (hp : parse_cpio_run d = Except.ok h) :
    parse_cpio_entry_header d = some (Except.ok h) := by
  unfold parse_cpio_run at hp
  have hs := parse_cpio_entry_header_isSome d
  cases he : parse_cpio_entry_header d with
  | none => rw [he] at hs; simp at hs
  | some r => rw [he] at hp; simp at hp; rw [hp]

lemma byte_padding_mod (n : Nat) : (n + byte_padding n) % 4 = 0 := by
  unfold byte_padding
  split <;> omega

lemma parse_run_header_size_pos (d : List Nat) (h : CPIOEntryHeader)
    (hp : parse_cpio_run d = Except.ok h) : 110 ≤ h.header_size := by
  obtain ⟨fds, fns, _, _, _, hh⟩ := parse_ok_sizes d h (parse_run_ok d h hp)
  omega

/-- C8: the header parser is total and panic-free.  For every input byte
list — malformed, truncated or adversarial included — `parse_cpio_entry_header`
returns a value (`Ok` header or parse error) and never reaches the `none`
branch that marks a Rust panic: every fixed-offset slice is guarded by the
minimum-length check, the name slice and the name-end subtraction are
checked. -/
theorem cpio_parser_total_no_panic (d : List Nat) :
    (parse_cpio_entry_header d).isSome = true :=
  parse_cpio_entry_header_isSome d

/-- C7: every successfully parsed header has
`header_size = align4(110 + name_size)` and `data_size = align4(decoded
data size)` where `align4` adds `byte_padding` — 0 for a multiple of 4,
otherwise `4 - n % 4` — so both sizes are multiples of 4. -/
theorem cpio_header_sizes_aligned (d : List Nat) (h : CPIOEntryHeader)
    (hp : parse_cpio_run d = Except.ok h) :
    ∃ fds fns,
      from_str_radix16 ((d.drop 54).take 8) = some fds ∧
      from_str_radix16 ((d.drop 94).take 8) = some fns ∧
      h.data_size = fds + byte_padding fds ∧
      h.header_size = (110 + fns) + byte_padding (110 + fns) ∧
      h.data_size % 4 = 0 ∧
      h.header_size % 4 = 0 := by
  obtain ⟨fds, fns, h1, h2, h3, h4⟩ := parse_ok_sizes d h (parse_run_ok d h hp)
  exact ⟨fds, fns, h1, h2, h3, h4, by rw [h3]; exact byte_padding_mod fds,
    by rw [h4]; exact byte_padding_mod (110 + fns)⟩

set_option maxRecDepth 8192 in
/-- Witness for C7 at a concrete parsed header. -/
theorem cpio_header_sizes_aligned_witness :
    ∃ fds fns,
      from_str_radix16 ((trailer_archive.drop 54).take 8) = some fds ∧
      from_str_radix16 ((trailer_archive.drop 94).take 8) = some fns ∧
      trailer_header.data_size = fds + byte_padding fds ∧
      trailer_header.header_size = (110 + fns) + byte_padding (110 + fns) ∧
      trailer_header.data_size % 4 = 0 ∧
      trailer_header.header_size % 4 = 0 :=
  cpio_header_sizes_aligned trailer_archive trailer_header (by decide)

lemma extract_cpio_loop_step
    (file_data : List Nat) (fuel next : Nat) (prev : Option Nat) (total : Nat)
    (entries : List CPIOEntry) (result : ExtractionResult) (header : CPIOEntryHeader)
    (hsafe : is_offset_safe file_data.length next prev = true)
    (hparse : parse_cpio_run (file_data.drop next) = Except.ok header) :
    (header.file_name = EOF_MARKER →
      extract_cpio_loop file_data (fuel + 1) next prev total entries result =
        some ({ success := true,
                size := some (total + (header.header_size + header.data_size)) }, entries)) ∧
    (¬ header.file_name = EOF_MARKER →
      extract_cpio_loop file_data (fuel + 1) next prev total entries result =
        extract_cpio_loop file_data fuel
          (next + (header.header_size + header.data_size)) (some next)
          (total + (header.header_size + header.data_size))
          (entries ++ [{ name := header.file_name
                         file_type := header.file_type
                         mode := header.mode
                         data_offset := next + header.header_size
                         data_size := header.data_size
                         dev_major := header.dev_major
                         dev_minor := header.dev_minor }]) result) := by
  have hlt : next < file_data.length := is_offset_safe_lt _ _ _ hsafe
  have hget : rust_get_from file_data next = some (file_data.drop next) := by
    unfold rust_get_from
    rw [if_pos (by omega)]
  constructor
  · intro heof
    simp only [extract_cpio_loop, hsafe, if_true, hget, hparse, heof]
  · intro hne
    simp only [extract_cpio_loop, hsafe, if_true, hget, hparse]
    rw [if_neg hne]

/-- C5: one step of the archive walker at a safely reachable offset whose
header parses — the walker adds `header_size + data_size` to the running
total for every parsed entry, the trailer included; when the parsed name is
"TRAILER!!!" it returns at once with success and `size = Some(total)`,
leaving the recorded entries untouched and examining no further entry;
otherwise it records the entry and continues at the advanced offset. -/
theorem cpio_walker_trailer_accumulates_and_stops
    (file_data : List Nat) (fuel next : Nat) (prev : Option Nat) (total : Nat)
    (entries : List CPIOEntry) (result : ExtractionResult) (header : CPIOEntryHeader)
    (hsafe : is_offset_safe file_data.length next prev = true)
    (hparse : parse_cpio_run (file_data.drop next) = Except.ok header) :
    (header.file_name = EOF_MARKER →
      extract_cpio_loop file_data (fuel + 1) next prev total entries result =
        some ({ success := true,
                size := some (total + (header.header_size + header.data_size)) }, entries)) ∧
    (¬ header.file_name = EOF_MARKER →
      extract_cpio_loop file_data (fuel + 1) next prev total entries result =
        extract_cpio_loop file_data fuel
          (next + (header.header_size + header.data_size)) (some next)
          (total + (header.header_size + header.data_size))
          (entries ++ [{ name := header.file_name
                         file_type := header.file_type
                         mode := header.mode
                         data_offset := next + header.header_size
                         data_size := header.data_size
                         dev_major := header.dev_major
                         dev_minor := header.dev_minor }]) result) :=
  extract_cpio_loop_step file_data fuel next prev total entries result header hsafe hparse

set_option maxRecDepth 8192 in
/-- Witness for C5: the concrete trailer-only archive stops at once with
`size = Some 124`, the trailer entry's own `header_size + data_size`. -/
theorem cpio_walker_trailer_accumulates_and_stops_witness :
    extract_cpio_loop trailer_archive 1 0 none 0 [] ExtractionResult.default =
      some ({ success := true, size := some 124 }, []) :=
  (cpio_walker_trailer_accumulates_and_stops trailer_archive 0 0 none 0 []
    ExtractionResult.default trailer_header (by decide) (by decide)).1 (by decide)

/-- C6: when an output root is supplied and the walk succeeded (the trailer
was found), `extract_cpio` offers every recorded entry for materialization
and its final success flag is true exactly when at least one entry
materializes — per-entry failures with a sibling success leave it true, and
it is downgraded to false exactly when zero entries succeed.  The consumed
size is not changed by the downgrade. -/
theorem cpio_extract_success_downgrade
    (chroot : Chroot) (file_data : List Nat) (offset : Nat) (od : Option String)
    (r : ExtractionResult) (es : List CPIOEntry)
    (hod : od.isSome = true)
    (hloop : extract_cpio_loop file_data (file_data.length + 1) offset none 0 []
      ExtractionResult.default = some (r, es))
    (hsucc : r.success = true) :
    extract_cpio chroot file_data offset od =
      { success := decide ((es.countP fun e => extract_cpio_entry chroot file_data e) ≠ 0)
        size := r.size } := by
  obtain ⟨rs, rz⟩ := r
  simp only at hsucc
  subst hsucc
  unfold extract_cpio
  rw [hloop]
  simp only [hod, Bool.and_true, if_true]
  split
  · rename_i hz
    simp [hz]
  · rename_i hz
    simp [hz]

set_option maxRecDepth 8192 in
/-- Witness for C6 on the trailer-only archive with an all-succeeding
sandbox: zero recorded entries, so success is downgraded to false. -/
theorem cpio_extract_success_downgrade_witness :
    extract_cpio chroot_all_true trailer_archive 0 (some "out") =
      { success := decide (([].countP fun e =>
          extract_cpio_entry chroot_all_true trailer_archive e) ≠ 0)
        size := some 124 } :=
  cpio_extract_success_downgrade chroot_all_true trailer_archive 0 (some "out")
    { success := true, size := some 124 } [] (by decide) (by decide) (by decide)

/-- C10: for an archive whose entry at the given offset is already the
trailer, extraction succeeds in dry-run mode (no output root), but fails
when an output root is supplied, because the recorded-entry list is empty
and zero entries materialize; the reported size is the same either way, so
overall success depends on whether an output root is present. -/
theorem cpio_trailer_only_success_depends_on_output_root
    (chroot : Chroot) (file_data : List Nat) (offset : Nat) (header : CPIOEntryHeader)
    (hsafe : is_offset_safe file_data.length offset none = true)
    (hparse : parse_cpio_run (file_data.drop offset) = Except.ok header)
    (heof : header.file_name = EOF_MARKER) :
    extract_cpio chroot file_data offset none =
      { success := true, size := some (header.header_size + header.data_size) } ∧
    (∀ dir : String, extract_cpio chroot file_data offset (some dir) =
      { success := false, size := some (header.header_size + header.data_size) }) := by
  have hloop := (extract_cpio_loop_step file_data file_data.length offset none 0 []
    ExtractionResult.default header hsafe hparse).1 heof
  constructor
  · unfold extract_cpio
    rw [hloop]
    simp
  · intro dir
    unfold extract_cpio
    rw [hloop]
    simp

set_option maxRecDepth 8192 in
/-- Witness for C10 on the concrete trailer-only archive. -/
theorem cpio_trailer_only_success_depends_on_output_root_witness :
    extract_cpio chroot_all_true trailer_archive 0 none =
      { success := true, size := some 124 } ∧
    extract_cpio chroot_all_true trailer_archive 0 (some "out") =
      { success := false, size := some 124 } := by
  have h := cpio_trailer_only_success_depends_on_output_root chroot_all_true
    trailer_archive 0 trailer_header (by decide) (by decide) (by decide)
  exact ⟨h.1, h.2 "out"⟩

set_option maxRecDepth 16384 in
/-- C1 (refuted — code bug): the walker stores the *padded* data size in each
recorded entry, and `extract_cpio_entry` then computes
`actual_size = data_size - calculate_padding data_size`, which subtracts 0
because the stored size is already a multiple of 4.  For the concrete
archive whose regular file has decoded (stored) data size S = 1 and padding
P = 3, the walker records `data_size = 4`, the carve call receives length 4
— not S = 1 — and the three trailing pad bytes are written into the
recreated file content. -/
theorem cpio_regular_entry_padding_not_stripped :
    extract_cpio_loop regfile_archive (regfile_archive.length + 1) 0 none 0 []
        ExtractionResult.default =
      some ({ success := true, size := some 240 }, [regfile_entry]) ∧
    (∀ chroot : Chroot,
      extract_cpio_entry chroot regfile_archive regfile_entry =
        chroot.carve_file [65] regfile_archive 112 4) ∧
    carve_region regfile_archive 112 4 = [65, 0, 0, 0] :=
  ⟨by decide, fun chroot => rfl, by decide⟩

/-- C2 (counterexample): on the 1-byte buffer `[0]` at offset 0, with a
decoder that errors on its very first read (consuming nothing and producing
nothing — the bzip2 decoder's behavior on a buffer with no valid stream
header), the decompressor returns `size = Some 0`, not `None`, although the
total of consumed input bytes is zero: the early-error return sets
`size = Some(total_consumed)` unconditionally. -/
theorem bzip2_size_zero_counterexample :
    bzip2_decompressor bz_err_oracle chroot_all_true [0] 0 none =
      { success := false, size := some 0 } ∧
    (bzip2_decompressor bz_err_oracle chroot_all_true [0] 0 none).size ≠ none :=
  ⟨by decide, by decide⟩

set_option maxRecDepth 8192 in
/-- C3 (counterexample): encoding a header with data size 1 and name "A" and
parsing it back yields `data_size = 4`, not the encoded 1 — the parser
stores the 4-byte-aligned size, so an unaligned data size does not round
trip. -/
theorem cpio_roundtrip_data_size_counterexample :
    parse_cpio_run (cpio_encode_header 0 1 [65]) =
      Except.ok
        { magic := cpio_magic
          data_size := 4
          file_name := [65]
          header_size := 112
          mode := 0
          file_type := CPIOFileType.Unknown
          dev_major := 0
          dev_minor := 0 } ∧
    (4 : Nat) ≠ 1 :=
  ⟨by decide, by decide⟩

/-- C3 (amended): encoding a header with a given mode, data size and
(valid-UTF-8) name and parsing the bytes back reproduces the mode and the
name exactly, and reproduces the data size up to 4-byte alignment: the
parsed `data_size` is `align4(encoded size)` — equal to the encoded size
exactly when that size is already a multiple of 4.  The field bounds are the
8-hex-digit field capacity `16 ^ 8`. -/
theorem cpio_roundtrip_mode_name_data_size_aligned
    (mode filesize : Nat) (name : List Nat)
    (hmode : mode < 4294967296) (hfs : filesize < 4294967296)
    (hns : name.length + 1 < 4294967296)
    (hutf : utf8_valid name = true) :
    parse_cpio_run (cpio_encode_header mode filesize name) =
      Except.ok
        { magic := cpio_magic
          data_size := filesize + byte_padding filesize
          file_name := name
          header_size := (110 + (name.length + 1)) + byte_padding (110 + (name.length + 1))
          mode := mode
          file_type := parse_file_type mode
          dev_major := 0
          dev_minor := 0 } := by
  unfold parse_cpio_run
  rw [parse_header_eq (cpio_encode_header mode filesize name) mode 0 0 filesize
    (name.length + 1) name
    (by rw [cpio_encode_header_length]; omega)
    (by rw [cpio_encode_mode]; exact from_str_radix16_hex8 mode hmode)
    (by rw [cpio_encode_devmajor]; exact from_str_radix16_hex8 0 (by norm_num))
    (by rw [cpio_encode_devminor]; exact from_str_radix16_hex8 0 (by norm_num))
    (by rw [cpio_encode_filesize]; exact from_str_radix16_hex8 filesize hfs)
    (by rw [cpio_encode_namesize]; exact from_str_radix16_hex8 (name.length + 1) hns)
    (cpio_encode_name mode filesize name) hutf]
  rw [Option.getD_some, cpio_encode_magic]

set_option maxRecDepth 8192 in
/-- Witness for the amended C3 at mode 0o100644, data size 1, name "A". -/
theorem cpio_roundtrip_mode_name_data_size_aligned_witness :
    parse_cpio_run (cpio_encode_header 33188 1 [65]) =
      Except.ok
        { magic := cpio_magic
          data_size := 1 + byte_padding 1
          file_name := [65]
          header_size := (110 + (1 + 1)) + byte_padding (110 + (1 + 1))
          mode := 33188
          file_type := parse_file_type 33188
          dev_major := 0
          dev_minor := 0 } :=
  cpio_roundtrip_mode_name_data_size_aligned 33188 1 [65]
    (by norm_num) (by norm_num) (by norm_num) (by decide)

lemma bzip2_loop_isSome (dec : BzOracle) (chroot : Chroot) (b : Bool)
    (file_data : List Nat) :
    ∀ fuel cur tot : Nat, ∀ ad : Bool, ∀ widx : Nat,
      file_data.length - cur < fuel →
      (bzip2_loop dec chroot b file_data fuel cur tot ad widx).isSome = true := by
  intro fuel
  induction fuel with
  | zero => intro cur tot ad widx h; omega
  | succ n ih =>
    intro cur tot ad widx h
    simp only [bzip2_loop]
    split
    · simp
    · rename_i hcur
      split
      · simp
      · split
        · simp
        · split
          · simp
          · rename_i hcz
            exact ih _ _ _ _ (by omega)

lemma extract_cpio_loop_isSome (file_data : List Nat) :
    ∀ fuel next : Nat, ∀ prev : Option Nat, ∀ total : Nat,
      ∀ entries : List CPIOEntry, ∀ result : ExtractionResult,
      file_data.length - next < fuel →
      (extract_cpio_loop file_data fuel next prev total entries result).isSome = true := by
  intro fuel
  induction fuel with
  | zero => intro next prev total entries result h; omega
  | succ n ih =>
    intro next prev total entries result h
    simp only [extract_cpio_loop]
    split
    · rename_i hsafe
      have hlt := is_offset_safe_lt _ _ _ hsafe
      split
      · simp
      · split
        · simp
        · split
          · simp
          · rename_i header heq hne
            have hpos := parse_run_header_size_pos _ _ heq
            exact ih _ _ _ _ _ (by omega)
    · simp

/-- C9: both extraction loops terminate on every input, adversarial ones
included.  The member-concatenation loop advances the offset by at least one
consumed byte per continuing iteration and otherwise exits (buffer end,
decode error, write failure, or a member that consumed zero bytes); the
walker loop continues only on offsets that are in bounds and strictly
increasing, and every parsed header advances the offset by its positive
`header_size + data_size`.  Hence each loop exits — never exhausting its
iteration budget — whenever that budget exceeds the number of bytes from the
current offset to the end of the buffer. -/
theorem extraction_loops_terminate :
    (∀ (dec : BzOracle) (chroot : Chroot) (b : Bool) (file_data : List Nat)
       (fuel cur tot : Nat) (ad : Bool) (widx : Nat),
      file_data.length - cur < fuel →
      (bzip2_loop dec chroot b file_data fuel cur tot ad widx).isSome = true) ∧
    (∀ (file_data : List Nat) (fuel next : Nat) (prev : Option Nat) (total : Nat)
       (entries : List CPIOEntry) (result : ExtractionResult),
      file_data.length - next < fuel →
      (extract_cpio_loop file_data fuel next prev total entries result).isSome = true) :=
  ⟨fun dec chroot b fd fuel cur tot ad widx h =>
      bzip2_loop_isSome dec chroot b fd fuel cur tot ad widx h,
   fun fd fuel next prev total entries result h =>
      extract_cpio_loop_isSome fd fuel next prev total entries result h⟩

/-- Witness for C9 at concrete loop states. -/
theorem extraction_loops_terminate_witness :
    (bzip2_loop bz_err_oracle chroot_all_true false [0] 2 0 0 false 0).isSome = true ∧
    (extract_cpio_loop [] 1 0 none 0 [] ExtractionResult.default).isSome = true :=
  ⟨extraction_loops_terminate.1 bz_err_oracle chroot_all_true false [0] 2 0 0 false 0
      (by decide),
   extraction_loops_terminate.2 [] 1 0 none 0 [] ExtractionResult.default (by decide)⟩

lemma any_member_output_stop (dec : BzOracle) (fd : List Nat) (cur : Nat)
    (h : fd.length ≤ cur) : any_member_output dec fd cur = false := by
  unfold any_member_output
  rw [dif_pos h]

lemma members_consumed_stop (dec : BzOracle) (fd : List Nat) (cur : Nat)
    (h : fd.length ≤ cur) : members_consumed dec fd cur = 0 := by
  unfold members_consumed
  rw [dif_pos h]

lemma any_member_output_zero (dec : BzOracle) (fd : List Nat) (cur : Nat)
    (h1 : ¬ fd.length ≤ cur) (h2 : (dec (fd.drop cur)).consumed = 0) :
    any_member_output dec fd cur = false := by
  unfold any_member_output
  rw [dif_neg h1, dif_pos h2]

lemma members_consumed_zero (dec : BzOracle) (fd : List Nat) (cur : Nat)
    (h1 : ¬ fd.length ≤ cur) (h2 : (dec (fd.drop cur)).consumed = 0) :
    members_consumed dec fd cur = 0 := by
  unfold members_consumed
  rw [dif_neg h1, dif_pos h2]

lemma any_member_output_step (dec : BzOracle) (fd : List Nat) (cur : Nat)
    (h1 : ¬ fd.length ≤ cur) (h2 : ¬ (dec (fd.drop cur)).consumed = 0) :
    any_member_output dec fd cur =
      (!(dec (fd.drop cur)).chunks.isEmpty ||
        any_member_output dec fd (cur + (dec (fd.drop cur)).consumed)) := by
  conv_lhs => unfold any_member_output
  rw [dif_neg h1, dif_neg h2]

lemma members_consumed_step (dec : BzOracle) (fd : List Nat) (cur : Nat)
    (h1 : ¬ fd.length ≤ cur) (h2 : ¬ (dec (fd.drop cur)).consumed = 0) :
    members_consumed dec fd cur =
      (dec (fd.drop cur)).consumed +
        members_consumed dec fd (cur + (dec (fd.drop cur)).consumed) := by
  conv_lhs => unfold members_consumed
  rw [dif_neg h1, dif_neg h2]

lemma run_appends_all_ok (chroot : Chroot) (b : Bool)
    (happ : ∀ i c, chroot.append_to_file i c = true) :
    ∀ cs : List (List Nat), ∀ w : Nat, ∃ w2, run_appends chroot b w cs = some w2 := by
  intro cs
  induction cs with
  | nil => intro w; exact ⟨w, rfl⟩
  | cons c rest ih =>
    intro w
    simp only [run_appends]
    split
    · rw [if_pos (happ w c)]
      exact ih (w + 1)
    · exact ih w

lemma bzip2_loop_characterization (dec : BzOracle) (chroot : Chroot) (b : Bool)
    (file_data : List Nat)
    (hnf : ∀ s, (dec s).failed = false)
    (happ : ∀ i c, chroot.append_to_file i c = true) :
    ∀ fuel cur tot : Nat, ∀ ad : Bool, ∀ widx : Nat,
      file_data.length - cur < fuel →
      bzip2_loop dec chroot b file_data fuel cur tot ad widx =
        some { success := ad || any_member_output dec file_data cur
               size := if 0 < tot + members_consumed dec file_data cur
                       then some (tot + members_consumed dec file_data cur) else none } := by
  intro fuel
  induction fuel with
  | zero => intro cur tot ad widx h; omega
  | succ n ih =>
    intro cur tot ad widx h
    simp only [bzip2_loop]
    split
    · rename_i hcur
      rw [any_member_output_stop dec file_data cur hcur,
          members_consumed_stop dec file_data cur hcur]
      simp
    · rename_i hcur
      obtain ⟨w2, hw2⟩ := run_appends_all_ok chroot b happ
        (dec (file_data.drop cur)).chunks widx
      simp only [hw2, hnf, Bool.false_eq_true, if_false]
      split
      · rename_i hc0
        rw [any_member_output_zero dec file_data cur hcur hc0,
            members_consumed_zero dec file_data cur hcur hc0]
        simp
      · rename_i hc0
        rw [ih (cur + (dec (file_data.drop cur)).consumed)
            (tot + (dec (file_data.drop cur)).consumed)
            (ad || !(dec (file_data.drop cur)).chunks.isEmpty) w2 (by omega)]
        rw [any_member_output_step dec file_data cur hcur hc0,
            members_consumed_step dec file_data cur hcur hc0]
        rw [Bool.or_assoc, Nat.add_assoc]

/-- C2 (amended): when no member read errs and no append fails, the
decompressor's result satisfies the claimed characterization — success is
true exactly when some member of the consumption-induced member
decomposition produced at least one decoded byte, and size is
`Some(total consumed input bytes)` when that total is positive and `None`
when it is zero.  For every offset at or past the end of the buffer the
result is success = false, size = None, unconditionally.  (On an early
termination caused by a decode error or append failure, the code instead
reports `size = Some(bytes consumed by the completed members)`, which can be
`Some 0` — see the counterexample.) -/
theorem bzip2_result_characterization :
    (∀ (dec : BzOracle) (chroot : Chroot) (file_data : List Nat) (offset : Nat)
       (od : Option String),
      (∀ s, (dec s).failed = false) →
      (∀ i c, chroot.append_to_file i c = true) →
      bzip2_decompressor dec chroot file_data offset od =
        { success := any_member_output dec file_data offset
          size := if 0 < members_consumed dec file_data offset
                  then some (members_consumed dec file_data offset) else none }) ∧
    (∀ (dec : BzOracle) (chroot : Chroot) (file_data : List Nat) (offset : Nat)
       (od : Option String), file_data.length ≤ offset →
      bzip2_decompressor dec chroot file_data offset od = ExtractionResult.default) := by
  constructor
  · intro dec chroot file_data offset od hnf happ
    unfold bzip2_decompressor
    split
    · rename_i hoff
      rw [any_member_output_stop dec file_data offset hoff,
          members_consumed_stop dec file_data offset hoff]
      simp [ExtractionResult.default]
    · rename_i hoff
      rw [bzip2_loop_characterization dec chroot od.isSome file_data hnf happ
        (file_data.length + 1) offset 0 false 0 (by omega)]
      simp
  · intro dec chroot file_data offset od hoff
    unfold bzip2_decompressor
    rw [if_pos hoff]

/-- Witness for the amended C2 with a decoder that decodes the whole
remaining slice as one member. -/
theorem bzip2_result_characterization_witness :
    bzip2_decompressor bz_ok_oracle chroot_all_true [1, 2] 0 none =
      { success := any_member_output bz_ok_oracle [1, 2] 0
        size := if 0 < members_consumed bz_ok_oracle [1, 2] 0
                then some (members_consumed bz_ok_oracle [1, 2] 0) else none } :=
  bzip2_result_characterization.1 bz_ok_oracle chroot_all_true [1, 2] 0 none
    (fun _ => rfl) (fun _ _ => rfl)

/-- C4: partial success is preserved.  First part: from any loop state in
which earlier members already decoded successfully (`any_decompressed =
true`) and `tot` input bytes were consumed by those completed members, a
member whose compressed bytes fail to decode — or one of whose appends
fails — terminates the whole loop immediately with `success = true` and
`size = Some tot`, excluding the failing member.  Second part, at the
extractor's entry point: a first member that completes with output and `k >
0` consumed bytes followed by an aborting member yields exactly
`success = true`, `size = Some k`. -/
theorem bzip2_partial_success_preserved :
    (∀ (dec : BzOracle) (chroot : Chroot) (b : Bool) (file_data : List Nat)
       (fuel cur tot widx : Nat),
      ¬ file_data.length ≤ cur →
      (run_appends chroot b widx (dec (file_data.drop cur)).chunks = none ∨
        ((dec (file_data.drop cur)).failed = true ∧
          ∃ w2, run_appends chroot b widx (dec (file_data.drop cur)).chunks = some w2)) →
      bzip2_loop dec chroot b file_data (fuel + 1) cur tot true widx =
        some { success := true, size := some tot }) ∧
    (∀ (dec : BzOracle) (chroot : Chroot) (file_data : List Nat) (offset k : Nat)
       (od : Option String) (w1 : Nat),
      offset < file_data.length →
      (dec (file_data.drop offset)).failed = false →
      (dec (file_data.drop offset)).chunks.isEmpty = false →
      (dec (file_data.drop offset)).consumed = k →
      0 < k →
      offset + k < file_data.length →
      run_appends chroot od.isSome 0 (dec (file_data.drop offset)).chunks = some w1 →
      (run_appends chroot od.isSome w1 (dec (file_data.drop (offset + k))).chunks = none ∨
        ((dec (file_data.drop (offset + k))).failed = true ∧
          ∃ w2, run_appends chroot od.isSome w1
            (dec (file_data.drop (offset + k))).chunks = some w2)) →
      bzip2_decompressor dec chroot file_data offset od =
        { success := true, size := some k }) := by
  constructor
  · intro dec chroot b file_data fuel cur tot widx hcur habort
    simp only [bzip2_loop]
    rw [if_neg hcur]
    rcases habort with hnone | ⟨hfail, w2, hw2⟩
    · simp only [hnone]
    · simp only [hw2, hfail, if_true]
  · intro dec chroot file_data offset k od w1 hoff hm1f hm1c hm1k hk hk2 hw1 habort
    unfold bzip2_decompressor
    rw [if_neg (by omega)]
    simp only [bzip2_loop, hw1, hm1f, hm1k, hm1c, Bool.false_eq_true, if_false]
    rw [if_neg (show ¬ file_data.length ≤ offset by omega),
        if_neg (show ¬ k = 0 by omega)]
    simp only [Bool.not_false, Bool.or_true]
    rw [show (0 : Nat) + k = k by omega]
    obtain ⟨m, hm⟩ : ∃ m, file_data.length = m + 1 := ⟨file_data.length - 1, by omega⟩
    rw [hm]
    simp only [bzip2_loop]
    rw [if_neg (show ¬ file_data.length ≤ offset + k by omega)]
    rcases habort with hnone | ⟨hfail, w2, hw2⟩
    · simp only [hnone]
      rfl
    · simp only [hw2, hfail, if_true]
      rfl

/-- Witness for C4: a 4-byte buffer whose first 2 bytes form a valid member
and whose tail fails to decode. -/
theorem bzip2_partial_success_preserved_witness :
    bzip2_decompressor bz_two_member_oracle chroot_all_true [9, 9, 9, 9] 0 none =
      { success := true, size := some 2 } :=
  bzip2_partial_success_preserved.2 bz_two_member_oracle chroot_all_true
    [9, 9, 9, 9] 0 2 none 0
    (by decide) (by decide) (by decide) (by decide) (by decide) (by decide)
    (by decide)
    (Or.inr ⟨by decide, 0, by decide⟩)
